import Mathlib

/-!
Shallow embedding of the query-execution and result-serialization layer of the
postgres-mcp server (`tools.go`, with tool registration in `main.go`).

Modelling conventions:
* Engine column values are an open dynamic domain (`interface\x7b\x7d` in the
  source); the claims only ever inspect null/bool/int/string values, so the
  domain is embedded as the tagged union `Value` (the spec itself suggests this
  representation).
* A Go `map[string]interface\x7b\x7d` is embedded as an association list with
  overwrite-on-insert (`mapInsert`), which captures exactly the lookup
  semantics of Go map assignment.
* Database/driver behaviour (pool, transactions, cursors) is external to the
  program, so each tool takes an environment describing the driver's responses:
  whether `Begin` succeeds, the outcome of `Query` for a given SQL text, the
  per-row outcomes of `rows.Values()` / `rows.Scan(...)`, and the value of
  `rows.Err()` after exhaustion.
* `encoding/json`'s `MarshalIndent` is modelled by a simple serializer; the
  one behaviour the claims depend on is that a nil Go slice marshals to the
  JSON literal `null` while a non-nil slice marshals to an array.  A nil-able
  Go slice is embedded as `Option (List _)` with `none` for the nil slice.
-/

/-- Tagged-union embedding of the engine value domain that `rows.Values()`
returns (`interface\x7b\x7d` values in the source). -/
inductive Value where
  | null
  | bool (b : Bool)
  | int (n : Int)
  | str (s : String)
  deriving DecidableEq

/-- Embedding of a Go `map[string]interface\x7b\x7d` as an association list. -/
abbrev GoMap := List (String × Value)

/-- Go map assignment `m[k] = v`: overwrite the binding of `k` if present,
otherwise add it. -/
def mapInsert : GoMap → String → Value → GoMap
  | [], k, v => [(k, v)]
  | (k₀, v₀) :: rest, k, v =>
    if k₀ = k then (k, v) :: rest else (k₀, v₀) :: mapInsert rest k v

/-- Go map lookup `m[k]`. -/
def mapLookup : GoMap → String → Option Value
  | [], _ => none
  | (k₀, v₀) :: rest, k => if k₀ = k then some v₀ else mapLookup rest k

/-- Go `append` on a possibly-nil slice (`none` is the nil slice): appending to
nil allocates a fresh one-element slice. -/
def goAppend (acc : Option (List GoMap)) (x : GoMap) : Option (List GoMap) :=
  match acc with
  | none => some [x]
  | some l => some (l ++ [x])

/-- Go `%t` formatting of a boolean. -/
def goBool : Bool → String
  | true => "true"
  | false => "false"

/-- Serialization of one engine value, modelling `encoding/json` on the
embedded value domain (string escaping is not needed by any claim). -/
def jsonOfValue : Value → String
  | .null => "null"
  | .bool b => goBool b
  | .int n => toString n
  | .str s => "\"" ++ s ++ "\""

/-- Serialization of one generic row. -/
def jsonOfRow (m : GoMap) : String :=
  "\x7b" ++ String.intercalate ", "
    (m.map fun p => "\"" ++ p.1 ++ "\": " ++ jsonOfValue p.2) ++ "\x7d"

/-- Serialization of a possibly-nil slice of rows: Go's `encoding/json`
marshals a nil slice to the literal `null` and a non-nil slice to an array. -/
def jsonOfRows : Option (List GoMap) → String
  | none => "null"
  | some rs => "[" ++ String.intercalate ", " (rs.map jsonOfRow) ++ "]"

/-- Embedding of `*mcp.CallToolResult`: the `Content` text blocks plus the
`IsError` flag. -/
structure CallToolResult where
  content : List String
  isError : Bool
  deriving DecidableEq

/-- The `any` data value a tool hands back next to the `CallToolResult`:
Go `nil`, a (possibly nil) row slice, or a text blob. -/
inductive Payload where
  | nothing
  | rows (r : Option (List GoMap))
  | text (s : String)
  deriving DecidableEq

/-- Embedding of a tool's `(*mcp.CallToolResult, any, error)` triple:
`ok` is a returned envelope with a nil `error`, `err` is a returned non-nil
`error` (with nil envelope and nil data). -/
inductive ToolOutcome where
  | ok (result : CallToolResult) (data : Payload)
  | err (msg : String)
  deriving DecidableEq

/-- `true` exactly on the hard-error outcome (non-nil Go `error`). -/
def ToolOutcome.isHardError : ToolOutcome → Bool
  | .err _ => true
  | _ => false

/-- `true` exactly when the outcome carries a text data payload (the
non-JSON branch of `explain_analyze`). -/
def ToolOutcome.isTextPayload : ToolOutcome → Bool
  | .ok _ (.text _) => true
  | _ => false

/-- `returnJSONResult` (tools.go:29-39): marshal the data and wrap it in a
success envelope; on the embedded value domain marshalling cannot fail. -/
def returnJSONResult (data : Option (List GoMap)) : ToolOutcome :=
  .ok ⟨[jsonOfRows data], false⟩ (.rows data)

/-- `getExplicitBool` (tools.go:15-20).  Only key-presence in the decoded raw
JSON object is consulted, so the raw argument map is embedded as its key
list. -/
def getExplicitBool (rawArgs : List String) (key : String)
    (argValue defaultValue : Bool) : Bool :=
  if rawArgs.contains key then argValue else defaultValue

/-- `getSchema` (tools.go:22-27). -/
def getSchema (schema : String) : String :=
  if schema = "" then "public" else schema

/-- `addOptionalString` (tools.go:41-45). -/
def addOptionalString (m : GoMap) (key : String) (value : Option String) : GoMap :=
  match value with
  | some v => mapInsert m key (.str v)
  | none => m

/-- `ExplainAnalyzeArgs` (tools.go:70-79). -/
structure ExplainAnalyzeArgs where
  query : String
  analyze : Bool
  verbose : Bool
  costs : Bool
  buffers : Bool
  timing : Bool
  summary : Bool
  format : String
  deriving DecidableEq

/-- The six resolved EXPLAIN booleans (tools.go:327-332). -/
structure Flags where
  analyze : Bool
  costs : Bool
  timing : Bool
  summary : Bool
  buffers : Bool
  verbose : Bool
  deriving DecidableEq

/-- tools.go:319-325: the raw request is `none` when `req == nil`; otherwise
`some none` when `json.Unmarshal` fails (or decodes JSON `null`), leaving the
map nil; otherwise `some (some keys)`.  A nil map is replaced by an empty
one. -/
def resolveRawArgs : Option (Option (List String)) → List String
  | none => []
  | some none => []
  | some (some keys) => keys

/-- tools.go:327-332: presence-aware resolution of the six booleans. -/
def resolveFlags (rawArgs : List String) (args : ExplainAnalyzeArgs) : Flags where
  analyze := getExplicitBool rawArgs "analyze" args.analyze true
  costs := getExplicitBool rawArgs "costs" args.costs true
  timing := getExplicitBool rawArgs "timing" args.timing true
  summary := getExplicitBool rawArgs "summary" args.summary true
  buffers := getExplicitBool rawArgs "buffers" args.buffers false
  verbose := getExplicitBool rawArgs "verbose" args.verbose false

/-- tools.go:340: the `validFormats` membership test. -/
def validFormats (f : String) : Bool :=
  f = "text" || f = "json" || f = "xml" || f = "yaml"

/-- tools.go:334-343: empty format becomes `json`, then unrecognized formats
are coerced to `json`. -/
def resolveFormat (f : String) : String :=
  let f := if f = "" then "json" else f
  if validFormats f then f else "json"

/-- tools.go:345-360: ordered assembly of the EXPLAIN option clause. -/
def buildOptions (fl : Flags) (format : String) : List String :=
  let options := ["ANALYZE " ++ goBool fl.analyze,
                  "COSTS " ++ goBool fl.costs,
                  "SUMMARY " ++ goBool fl.summary,
                  "FORMAT " ++ format]
  let options := if fl.verbose then options ++ ["VERBOSE true"] else options
  let options := if fl.buffers then options ++ ["BUFFERS true"] else options
  if fl.analyze then options ++ ["TIMING " ++ goBool fl.timing] else options

deriving instance DecidableEq for Except

/-- One cursor row as the driver presents it: the outcome of `rows.Values()`
(the whole decoded row, or a scan error) and the outcome of
`rows.Scan(&line)` into a single text column (used by the non-JSON branch of
`explain_analyze`). -/
structure EnvRow where
  values : Except String (List Value)
  text : Except String String
  deriving DecidableEq

/-- A successful cursor: the column names from `rows.FieldDescriptions()`,
the rows `rows.Next()` will yield, and the value `rows.Err()` reports after
exhaustion (`some e` = the cursor stopped because of fault `e`). -/
structure RowsEnv where
  fields : List String
  rows : List EnvRow
  iterErr : Option String
  deriving DecidableEq

/-- tools.go:104-107 (and 389-392): build one generic row by assigning
`row[field.Name] = values[i]` in column order (the driver yields exactly one
value per field description). -/
def buildRow (fields : List String) (values : List Value) : GoMap :=
  (fields.zip values).foldl (fun m p => mapInsert m p.1 p.2) []

/-- The row loop of tools.go:99-109 (and 384-394): append one marshalled row
per cursor row to the (initially nil) result slice; a scan fault aborts the
loop with a hard error. -/
def marshalRows (fields : List String) :
    List EnvRow → Option (List GoMap) → Except String (Option (List GoMap))
  | [], acc => .ok acc
  | r :: rest, acc =>
    match r.values with
    | .error e => .error ("failed to scan row: " ++ e)
    | .ok vals => marshalRows fields rest (goAppend acc (buildRow fields vals))

/-- The text-accumulation loop of tools.go:402-410: scan each row as one text
column and append it with a trailing newline. -/
def textRows : List EnvRow → String → Except String String
  | [], acc => .ok acc
  | r :: rest, acc =>
    match r.text with
    | .error e => .error ("failed to scan row: " ++ e)
    | .ok line => textRows rest (acc ++ line ++ "\n")

/-- `QueryArgs` (tools.go:47-49). -/
structure QueryArgs where
  query : String
  deriving DecidableEq

/-- `ExecuteQuery` (tools.go:81-116).  `db` is the pool's response to
`pool.Query(ctx, sql)`: either an execution error or a cursor. -/
def ExecuteQuery (poolInit : Bool) (db : String → Except String RowsEnv)
    (args : QueryArgs) : ToolOutcome :=
  if poolInit = false then .err "database not connected" else
  match db args.query with
  | .error e => .ok ⟨["Query error: " ++ e], true⟩ .nothing
  | .ok renv =>
    match marshalRows renv.fields renv.rows none with
    | .error e => .err e
    | .ok results =>
      match renv.iterErr with
      | some e => .err ("row iteration error: " ++ e)
      | none => returnJSONResult results

/-- Committed database state, abstracted as per-table row counts (the claims
only observe that it is unchanged). -/
abbrev DBState := List (String × Nat)

/-- An open transaction: the committed state it started from and the pending
state its statements have produced.  `Rollback` discards the pending state,
`Commit` (never called by the source) would install it. -/
structure Tx where
  base : DBState
  pending : DBState

/-- `tx.Rollback(ctx)`: the committed state reverts to the transaction's
base. -/
def Tx.rollback (t : Tx) : DBState := t.base

/-- `tx.Commit(ctx)` (present in the driver, never called in tools.go). -/
def Tx.commit (t : Tx) : DBState := t.pending

/-- Driver environment for `ExplainAnalyze`: the committed state at entry, the
outcome of `pool.Begin(ctx)`, the (uncommitted) effect executing the explained
statement has on the state inside the transaction, and the cursor produced by
`tx.Query(ctx, explainQuery)` for a given SQL text. -/
structure ExplainEnv where
  db0 : DBState
  beginRes : Except String Unit
  txEffect : DBState → DBState
  run : String → Except String RowsEnv

/-- What an `ExplainAnalyze` call leaves behind: the tool outcome and the
committed database state after the call (the deferred rollback included). -/
structure ExplainOutcome where
  outcome : ToolOutcome
  db : DBState
  deriving DecidableEq

/-- `ExplainAnalyze` (tools.go:314-422).  `req` embeds the raw
`*mcp.CallToolRequest`: `none` when it is nil, `some none` when
`json.Unmarshal(req.Params.Arguments, &rawArgs)` fails or yields a nil map,
`some (some keys)` when it decodes an object with the given keys.  The
returned `db` component is the committed state after every deferred call has
run. -/
def ExplainAnalyze (poolInit : Bool) (req : Option (Option (List String)))
    (args : ExplainAnalyzeArgs) (env : ExplainEnv) : ExplainOutcome :=
  if poolInit = false then ⟨.err "database not connected", env.db0⟩ else
  let rawArgs := resolveRawArgs req
  let fl := resolveFlags rawArgs args
  let format := resolveFormat args.format
  let options := buildOptions fl format
  match env.beginRes with
  | .error e => ⟨.err ("failed to begin transaction: " ++ e), env.db0⟩
  | .ok _ =>
    let tx : Tx := ⟨env.db0, env.txEffect env.db0⟩
    let explainQuery :=
      "EXPLAIN (" ++ String.intercalate ", " options ++ ") " ++ args.query
    match env.run explainQuery with
    | .error e => ⟨.ok ⟨["EXPLAIN error: " ++ e], true⟩ .nothing, tx.rollback⟩
    | .ok renv =>
      if format = "json" then
        match marshalRows renv.fields renv.rows none with
        | .error e => ⟨.err e, tx.rollback⟩
        | .ok results =>
          match renv.iterErr with
          | some e => ⟨.err ("row iteration error: " ++ e), tx.rollback⟩
          | none => ⟨returnJSONResult results, tx.rollback⟩
      else
        match textRows renv.rows "" with
        | .error e => ⟨.err e, tx.rollback⟩
        | .ok out =>
          match renv.iterErr with
          | some e => ⟨.err ("row iteration error: " ++ e), tx.rollback⟩
          | none => ⟨.ok ⟨[out], false⟩ (.text out), tx.rollback⟩

/-- A catalog cursor: per-row outcomes of `rows.Scan(...)` decoded into the
tool-specific tuple `α`, plus the `rows.Err()` value the cursor would report
after exhaustion (note: the catalog tools never ask for it). -/
structure CatRows (α : Type) where
  rows : List (Except String α)
  iterErr : Option String

/-- The shared catalog row loop (tools.go:137-146, 175-192, 236-256,
291-309): append one built row per successfully scanned tuple to the
(initially nil) slice; a scan fault aborts with a hard error.  `rows.Err()`
is not consulted after the loop in any catalog tool. -/
def catalogLoop (build : α → GoMap) :
    List (Except String α) → Option (List GoMap) → Except String (Option (List GoMap))
  | [], acc => .ok acc
  | r :: rest, acc =>
    match r with
    | .error e => .error ("failed to scan row: " ++ e)
    | .ok x => catalogLoop build rest (goAppend acc (build x))

/-- `TableListArgs` (tools.go:51-53). -/
structure TableListArgs where
  schema : String
  deriving DecidableEq

/-- `TableSchemaArgs` (tools.go:55-58). -/
structure TableSchemaArgs where
  tableName : String
  schema : String
  deriving DecidableEq

/-- `TableConstraintsArgs` (tools.go:60-63). -/
structure TableConstraintsArgs where
  tableName : String
  schema : String
  deriving DecidableEq

/-- `TableIndexesArgs` (tools.go:65-68). -/
structure TableIndexesArgs where
  tableName : String
  schema : String
  deriving DecidableEq

/-- The tuple `ListTables` scans per row (tools.go:138). -/
structure TableRowScan where
  tableName : String
  tableType : String
  deriving DecidableEq

/-- The tuple `GetTableSchema` scans per row (tools.go:176-177). -/
structure ColumnScan where
  columnName : String
  dataType : String
  isNullable : String
  maxLength : Option String
  columnDefault : Option String
  deriving DecidableEq

/-- The tuple `GetTableConstraints` scans per row (tools.go:237-238). -/
structure ConstraintScan where
  constraintName : String
  constraintType : String
  columnName : Option String
  foreignTableName : Option String
  foreignColumnName : Option String
  updateRule : Option String
  deleteRule : Option String
  checkClause : Option String
  deriving DecidableEq

/-- The tuple `GetTableIndexes` scans per row (tools.go:292-294). -/
structure IndexScan where
  indexName : String
  indexDef : String
  indexType : String
  isUnique : Bool
  isPrimary : Bool
  columnName : String
  columnPosition : Int
  deriving DecidableEq

/-- The fixed SQL text of `list_tables` (tools.go:123-128). -/
def listTablesQuery : String :=
  "SELECT table_name, table_type FROM information_schema.tables WHERE table_schema = $1 ORDER BY table_name"

/-- The fixed SQL text of `get_table_schema` (tools.go:156-166). -/
def tableSchemaQuery : String :=
  "SELECT column_name, data_type, character_maximum_length, is_nullable, column_default FROM information_schema.columns WHERE table_schema = $1 AND table_name = $2 ORDER BY ordinal_position"

/-- The fixed SQL text of `get_table_constraints` (tools.go:202-227). -/
def tableConstraintsQuery : String :=
  "SELECT tc.constraint_name, tc.constraint_type, kcu.column_name, ccu.table_name AS foreign_table_name, ccu.column_name AS foreign_column_name, rc.update_rule, rc.delete_rule, cc.check_clause FROM information_schema.table_constraints tc LEFT JOIN information_schema.key_column_usage kcu ON tc.constraint_name = kcu.constraint_name AND tc.table_schema = kcu.table_schema LEFT JOIN information_schema.constraint_column_usage ccu ON tc.constraint_name = ccu.constraint_name AND tc.table_schema = ccu.table_schema LEFT JOIN information_schema.referential_constraints rc ON tc.constraint_name = rc.constraint_name AND tc.table_schema = rc.constraint_schema LEFT JOIN information_schema.check_constraints cc ON tc.constraint_name = cc.constraint_name AND tc.table_schema = cc.constraint_schema WHERE tc.table_schema = $1 AND tc.table_name = $2 ORDER BY tc.constraint_type, tc.constraint_name, kcu.ordinal_position"

/-- The fixed SQL text of `get_table_indexes` (tools.go:266-282). -/
def tableIndexesQuery : String :=
  "SELECT i.indexname, i.indexdef, a.amname AS index_type, idx.indisunique AS is_unique, idx.indisprimary AS is_primary, pg_get_indexdef(idx.indexrelid, k + 1, true) AS column_name, k AS column_position FROM pg_indexes i JOIN pg_class c ON c.relname = i.indexname JOIN pg_index idx ON idx.indexrelid = c.oid JOIN pg_am a ON a.oid = c.relam CROSS JOIN LATERAL generate_series(0, idx.indnatts - 1) AS k WHERE i.schemaname = $1 AND i.tablename = $2 ORDER BY i.indexname, k"

/-- The row map `ListTables` builds per scanned tuple (tools.go:142-145). -/
def listTablesRow (t : TableRowScan) : GoMap :=
  [("table_name", .str t.tableName), ("table_type", .str t.tableType)]

/-- The row map `GetTableSchema` builds per scanned tuple
(tools.go:183-189). -/
def tableSchemaRow (c : ColumnScan) : GoMap :=
  let column : GoMap := [("column_name", .str c.columnName),
                         ("data_type", .str c.dataType),
                         ("is_nullable", .str c.isNullable)]
  let column := addOptionalString column "max_length" c.maxLength
  addOptionalString column "default" c.columnDefault

/-- The row map `GetTableConstraints` builds per scanned tuple
(tools.go:244-253). -/
def tableConstraintsRow (c : ConstraintScan) : GoMap :=
  let constraint : GoMap := [("constraint_name", .str c.constraintName),
                             ("constraint_type", .str c.constraintType)]
  let constraint := addOptionalString constraint "column_name" c.columnName
  let constraint := addOptionalString constraint "foreign_table_name" c.foreignTableName
  let constraint := addOptionalString constraint "foreign_column_name" c.foreignColumnName
  let constraint := addOptionalString constraint "update_rule" c.updateRule
  let constraint := addOptionalString constraint "delete_rule" c.deleteRule
  addOptionalString constraint "check_clause" c.checkClause

/-- The row map `GetTableIndexes` builds per scanned tuple
(tools.go:300-308). -/
def tableIndexesRow (i : IndexScan) : GoMap :=
  [("index_name", .str i.indexName),
   ("index_type", .str i.indexType),
   ("is_unique", .bool i.isUnique),
   ("is_primary", .bool i.isPrimary),
   ("column_name", .str i.columnName),
   ("column_position", .int i.columnPosition),
   ("index_definition", .str i.indexDef)]

/-- `ListTables` (tools.go:118-149).  `db` is the pool's response to
`pool.Query(ctx, sql, params...)`. -/
def ListTables (poolInit : Bool)
    (db : String → List String → Except String (CatRows TableRowScan))
    (args : TableListArgs) : ToolOutcome :=
  if poolInit = false then .err "database not connected" else
  match db listTablesQuery [getSchema args.schema] with
  | .error e => .err ("failed to list tables: " ++ e)
  | .ok resp =>
    match catalogLoop listTablesRow resp.rows none with
    | .error e => .err e
    | .ok tables => returnJSONResult tables

/-- `GetTableSchema` (tools.go:151-195). -/
def GetTableSchema (poolInit : Bool)
    (db : String → List String → Except String (CatRows ColumnScan))
    (args : TableSchemaArgs) : ToolOutcome :=
  if poolInit = false then .err "database not connected" else
  match db tableSchemaQuery [getSchema args.schema, args.tableName] with
  | .error e => .err ("failed to get table schema: " ++ e)
  | .ok resp =>
    match catalogLoop tableSchemaRow resp.rows none with
    | .error e => .err e
    | .ok columns => returnJSONResult columns

/-- `GetTableConstraints` (tools.go:197-259). -/
def GetTableConstraints (poolInit : Bool)
    (db : String → List String → Except String (CatRows ConstraintScan))
    (args : TableConstraintsArgs) : ToolOutcome :=
  if poolInit = false then .err "database not connected" else
  match db tableConstraintsQuery [getSchema args.schema, args.tableName] with
  | .error e => .err ("failed to get table constraints: " ++ e)
  | .ok resp =>
    match catalogLoop tableConstraintsRow resp.rows none with
    | .error e => .err e
    | .ok constraints => returnJSONResult constraints

/-- `GetTableIndexes` (tools.go:261-312). -/
def GetTableIndexes (poolInit : Bool)
    (db : String → List String → Except String (CatRows IndexScan))
    (args : TableIndexesArgs) : ToolOutcome :=
  if poolInit = false then .err "database not connected" else
  match db tableIndexesQuery [getSchema args.schema, args.tableName] with
  | .error e => .err ("failed to get table indexes: " ++ e)
  | .ok resp =>
    match catalogLoop tableIndexesRow resp.rows none with
    | .error e => .err e
    | .ok indexes => returnJSONResult indexes

/-- Specification-side definition, following the spec's words for the Generic
Row: with duplicate column names, "the value of the last such column (highest
index) is the one retained". -/
def specLastWriteWins : List (String × Value) → String → Option Value
  | [], _ => none
  | (k, v) :: rest, name =>
    match specLastWriteWins rest name with
    | some w => some w
    | none => if k = name then some v else none

theorem mapLookup_mapInsert (m : GoMap) (k name : String) (v : Value) :
    mapLookup (mapInsert m k v) name
      = if k = name then some v else mapLookup m name := by
  induction m with
  | nil => simp [mapInsert, mapLookup]
  | cons hd tl ih =>
    obtain ⟨k₀, v₀⟩ := hd
    by_cases h : k₀ = k
    · subst h
      by_cases hn : k₀ = name <;> simp [mapInsert, mapLookup, hn]
    · by_cases hn : k₀ = name <;> by_cases hkn : k = name <;>
        simp_all [mapInsert, mapLookup, ih]

theorem mapLookup_foldl_insert (pairs : List (String × Value)) (m : GoMap)
    (name : String) :
    mapLookup (pairs.foldl (fun acc p => mapInsert acc p.1 p.2) m) name
      = match specLastWriteWins pairs name with
        | some w => some w
        | none => mapLookup m name := by
  induction pairs generalizing m with
  | nil => simp [specLastWriteWins]
  | cons hd tl ih =>
    obtain ⟨k, v⟩ := hd
    simp only [List.foldl_cons, specLastWriteWins]
    rw [ih]
    rcases hlast : specLastWriteWins tl name with _ | w
    · by_cases h : k = name <;> simp [mapLookup_mapInsert, h]
    · simp

/-- Claim C9: each generic row maps every engine-reported column name, as-is,
to a value, assigned in column order, so the value retained for a duplicated
name is that of the last (highest-index) column bearing it. -/
theorem buildRow_last_write_wins (fields : List String) (values : List Value)
    (name : String) :
    mapLookup (buildRow fields values) name
      = specLastWriteWins (fields.zip values) name := by
  unfold buildRow
  rw [mapLookup_foldl_insert]
  rcases specLastWriteWins (fields.zip values) name <;> simp [mapLookup]

theorem resolveFormat_cases (f : String) :
    resolveFormat f = "text" ∨ resolveFormat f = "json" ∨
      resolveFormat f = "xml" ∨ resolveFormat f = "yaml" := by
  unfold resolveFormat validFormats
  by_cases h0 : f = ""
  · simp [h0]
  · by_cases h1 : f = "text" <;> by_cases h2 : f = "json" <;>
      by_cases h3 : f = "xml" <;> by_cases h4 : f = "yaml" <;>
      simp_all

theorem buildOptions_analyze_false (fl : Flags) (fmt : String)
    (ha : fl.analyze = false)
    (hf : fmt = "text" ∨ fmt = "json" ∨ fmt = "xml" ∨ fmt = "yaml") :
    "ANALYZE false" ∈ buildOptions fl fmt
    ∧ ∀ b, ("TIMING " ++ goBool b) ∉ buildOptions fl fmt := by
  obtain ⟨a, c, t, s, bu, v⟩ := fl
  subst ha
  rcases hf with rfl | rfl | rfl | rfl <;>
    cases c <;> cases t <;> cases s <;> cases bu <;> cases v <;>
    exact ⟨by decide, by intro b hb; cases b <;> revert hb <;> decide⟩

/-- Claim C2: each of the six booleans takes its default exactly when its key
is absent from the raw arguments, and an explicit `analyze=false` yields an
`ANALYZE false` clause with no `TIMING` clause even though `timing` defaults
to true. -/
theorem explain_flag_defaulting (rawArgs : List String)
    (args : ExplainAnalyzeArgs) :
    ((resolveFlags rawArgs args).analyze
        = if rawArgs.contains "analyze" then args.analyze else true)
  ∧ ((resolveFlags rawArgs args).costs
        = if rawArgs.contains "costs" then args.costs else true)
  ∧ ((resolveFlags rawArgs args).timing
        = if rawArgs.contains "timing" then args.timing else true)
  ∧ ((resolveFlags rawArgs args).summary
        = if rawArgs.contains "summary" then args.summary else true)
  ∧ ((resolveFlags rawArgs args).buffers
        = if rawArgs.contains "buffers" then args.buffers else false)
  ∧ ((resolveFlags rawArgs args).verbose
        = if rawArgs.contains "verbose" then args.verbose else false)
  ∧ (rawArgs.contains "analyze" = true → args.analyze = false →
      "ANALYZE false"
          ∈ buildOptions (resolveFlags rawArgs args) (resolveFormat args.format)
      ∧ ∀ b, ("TIMING " ++ goBool b)
          ∉ buildOptions (resolveFlags rawArgs args) (resolveFormat args.format)) := by
  refine ⟨rfl, rfl, rfl, rfl, rfl, rfl, fun h1 h2 => ?_⟩
  apply buildOptions_analyze_false
  · unfold resolveFlags getExplicitBool
    rw [h1]
    simp [h2]
  · exact resolveFormat_cases args.format

/-- Sample arguments with `analyze` explicitly false, for the C2 witness. -/
def sampleArgs : ExplainAnalyzeArgs :=
  ⟨"SELECT 1", false, false, true, false, true, true, "json"⟩

theorem explain_flag_defaulting_witness :
    (["analyze"].contains "analyze" = true ∧ sampleArgs.analyze = false)
    ∧ "ANALYZE false"
        ∈ buildOptions (resolveFlags ["analyze"] sampleArgs) (resolveFormat "json")
    ∧ ("TIMING true")
        ∉ buildOptions (resolveFlags ["analyze"] sampleArgs) (resolveFormat "json") := by
  have h := (explain_flag_defaulting ["analyze"] sampleArgs).2.2.2.2.2.2
    (by decide) rfl
  exact ⟨⟨by decide, rfl⟩, h.1, h.2 true⟩

theorem buildOptions_eq (fl : Flags) (fmt : String) :
    buildOptions fl fmt =
      ["ANALYZE " ++ goBool fl.analyze, "COSTS " ++ goBool fl.costs,
       "SUMMARY " ++ goBool fl.summary, "FORMAT " ++ fmt]
      ++ (if fl.verbose then ["VERBOSE true"] else [])
      ++ (if fl.buffers then ["BUFFERS true"] else [])
      ++ (if fl.analyze then ["TIMING " ++ goBool fl.timing] else []) := by
  obtain ⟨a, c, t, s, bu, v⟩ := fl
  cases v <;> cases bu <;> cases a <;> simp [buildOptions]

/-- Claim C3: the option clause is exactly `ANALYZE`, `COSTS`, `SUMMARY`,
`FORMAT` in that order, then `VERBOSE true` only when verbose, then
`BUFFERS true` only when buffers, then `TIMING` only when analyze; nothing
else and in no other position. -/
theorem explain_options_order (fl : Flags) (fmt : String) :
    buildOptions fl fmt =
      ["ANALYZE " ++ goBool fl.analyze, "COSTS " ++ goBool fl.costs,
       "SUMMARY " ++ goBool fl.summary, "FORMAT " ++ fmt]
      ++ (if fl.verbose then ["VERBOSE true"] else [])
      ++ (if fl.buffers then ["BUFFERS true"] else [])
      ++ (if fl.analyze then ["TIMING " ++ goBool fl.timing] else []) :=
  buildOptions_eq fl fmt

/-- Claim C10: a nil request, or raw argument bytes that fail to decode as a
JSON object, leave the raw-argument map empty, so every flag resolves to its
default and the call proceeds exactly as one with an explicit empty argument
object. -/
theorem explain_nil_request_defaults (p : Bool) (args : ExplainAnalyzeArgs)
    (env : ExplainEnv) :
    resolveRawArgs none = []
  ∧ resolveRawArgs (some none) = []
  ∧ resolveFlags [] args = ⟨true, true, true, true, false, false⟩
  ∧ ExplainAnalyze p none args env = ExplainAnalyze p (some (some [])) args env
  ∧ ExplainAnalyze p (some none) args env
      = ExplainAnalyze p (some (some [])) args env :=
  ⟨rfl, rfl, rfl, rfl, rfl⟩

/-- Claim C8: every catalog tool maps its schema argument through `getSchema`,
which sends the empty string to `"public"` and is the identity elsewhere, so a
call with `schema=""` issues the same parameterized query as, and returns
results identical to, a call with `schema="public"`. -/
theorem catalog_schema_defaulting :
    getSchema "" = "public"
  ∧ (∀ s, s ≠ "" → getSchema s = s)
  ∧ (∀ p db, ListTables p db ⟨""⟩ = ListTables p db ⟨"public"⟩)
  ∧ (∀ p db t, GetTableSchema p db ⟨t, ""⟩ = GetTableSchema p db ⟨t, "public"⟩)
  ∧ (∀ p db t, GetTableConstraints p db ⟨t, ""⟩
        = GetTableConstraints p db ⟨t, "public"⟩)
  ∧ (∀ p db t, GetTableIndexes p db ⟨t, ""⟩
        = GetTableIndexes p db ⟨t, "public"⟩) :=
  ⟨rfl, fun _ hs => by simp [getSchema, hs],
   fun _ _ => rfl, fun _ _ _ => rfl, fun _ _ _ => rfl, fun _ _ _ => rfl⟩

theorem catalog_schema_defaulting_witness :
    ("myschema" : String) ≠ "" ∧ getSchema "myschema" = "myschema" :=
  ⟨by decide, catalog_schema_defaulting.2.1 "myschema" (by decide)⟩

/-- Claim C6: an execution fault of the SQL statement itself yields a success
envelope (nil Go error) flagged as an error and carrying the engine's message
as text, for both `query` and `explain_analyze`. -/
theorem query_error_containment (e : String) (args : QueryArgs)
    (req : Option (Option (List String))) (eargs : ExplainAnalyzeArgs)
    (d0 : DBState) (eff : DBState → DBState) :
    ExecuteQuery true (fun _ => .error e) args
      = .ok ⟨["Query error: " ++ e], true⟩ .nothing
  ∧ (ExplainAnalyze true req eargs ⟨d0, .ok (), eff, fun _ => .error e⟩).outcome
      = .ok ⟨["EXPLAIN error: " ++ e], true⟩ .nothing :=
  ⟨rfl, rfl⟩

/-- Claim C1: the transaction opened around the EXPLAIN statement is rolled
back on every exit path, so the committed database state after any
`explain_analyze` call equals the state before it, whatever effect the
explained statement would have had and whether or not it succeeded. -/
theorem explain_rollback_isolation (p : Bool) (req : Option (Option (List String)))
    (args : ExplainAnalyzeArgs) (env : ExplainEnv) :
    (ExplainAnalyze p req args env).db = env.db0 := by
  unfold ExplainAnalyze
  dsimp only
  split
  · rfl
  · split
    · rfl
    · split
      · rfl
      · split <;> split <;> first | rfl | (split <;> rfl)

theorem resolveFormat_invalid (f : String) (h : validFormats f = false) :
    resolveFormat f = "json" := by
  unfold resolveFormat
  by_cases h0 : f = ""
  · simp [h0]
  · simp [h0, h]

/-- Claim C4: any format string outside text/json/xml/yaml (the empty string
included) is coerced to json, so the EXPLAIN clause carries `FORMAT json` and
the result is produced by the row-marshaling branch, never the
text-concatenation branch. -/
theorem explain_format_fallback (f : String) (h : validFormats f = false) :
    resolveFormat f = "json"
  ∧ (∀ fl, "FORMAT json" ∈ buildOptions fl (resolveFormat f))
  ∧ (∀ p req args env, args.format = f →
      ((ExplainAnalyze p req args env).outcome).isTextPayload = false) := by
  have h1 : resolveFormat f = "json" := resolveFormat_invalid f h
  refine ⟨h1, fun fl => ?_, fun p req args env hf => ?_⟩
  · have hj : ("FORMAT " ++ "json" : String) = "FORMAT json" := rfl
    rw [h1, buildOptions_eq, hj]
    simp
  · subst hf
    unfold ExplainAnalyze
    dsimp only
    rw [h1]
    split
    · rfl
    · split
      · rfl
      · split
        · rfl
        · simp only [reduceIte]
          split <;> try rfl
          split <;> rfl

/-- Sample driver environment where everything succeeds, for the C4
witness. -/
def sampleEnv : ExplainEnv :=
  ⟨[("t", 3)], .ok (), id, fun _ => .ok ⟨["QUERY PLAN"], [], none⟩⟩

/-- Sample arguments carrying an unrecognized format, for the C4 witness. -/
def sampleBadFormatArgs : ExplainAnalyzeArgs :=
  ⟨"SELECT 1", true, false, true, false, true, true, "garbage"⟩

theorem explain_format_fallback_witness :
    validFormats "garbage" = false
  ∧ resolveFormat "garbage" = "json"
  ∧ ((ExplainAnalyze true none sampleBadFormatArgs sampleEnv).outcome).isTextPayload
      = false :=
  ⟨by decide, (explain_format_fallback "garbage" (by decide)).1,
   (explain_format_fallback "garbage" (by decide)).2.2 true none
     sampleBadFormatArgs sampleEnv rfl⟩

/-- Claim C5 counterexample: a successful `query` whose cursor yields zero
rows leaves the result slice as the Go nil slice, so the returned data
payload is the nil sequence and the serialized text is the JSON literal
`null` — not the empty array `[]`. -/
theorem query_empty_null_cex :
    (ExecuteQuery true (fun _ => .ok ⟨["x"], [], none⟩)
        ⟨"SELECT x FROM t WHERE false"⟩
      = .ok ⟨["null"], false⟩ (.rows none))
    ∧ (Payload.rows none ≠ Payload.rows (some []))
    ∧ jsonOfRows none = "null"
    ∧ jsonOfRows (some []) = "[]" :=
  ⟨rfl, by decide, rfl, rfl⟩

/-- Claim C5 (amended): on zero matched rows, `query` and JSON-format
`explain_analyze` return the nil row slice, whose serialization is the JSON
literal `null` rather than an empty array, so empty and non-empty results are
not serialized uniformly. -/
theorem query_empty_rows_null (db : String → Except String RowsEnv)
    (args : QueryArgs) (fields : List String)
    (h : db args.query = .ok ⟨fields, [], none⟩) :
    ExecuteQuery true db args = .ok ⟨["null"], false⟩ (.rows none)
  ∧ ∀ req eargs d0 eff fields₂, resolveFormat eargs.format = "json" →
      (ExplainAnalyze true req eargs
          ⟨d0, .ok (), eff, fun _ => .ok ⟨fields₂, [], none⟩⟩).outcome
        = .ok ⟨["null"], false⟩ (.rows none) := by
  constructor
  · unfold ExecuteQuery
    rw [h]
    rfl
  · intro req eargs d0 eff fields₂ hf
    unfold ExplainAnalyze
    dsimp only
    rw [hf]
    rfl

theorem query_empty_rows_null_witness :
    ((fun _ => .ok ⟨["x"], ([] : List EnvRow), none⟩ :
        String → Except String RowsEnv) "SELECT x FROM t WHERE false"
      = .ok ⟨["x"], [], none⟩)
    ∧ ExecuteQuery true (fun _ => .ok ⟨["x"], [], none⟩)
        ⟨"SELECT x FROM t WHERE false"⟩ = .ok ⟨["null"], false⟩ (.rows none)
    ∧ (ExplainAnalyze true (some (some ["query"])) sampleArgs
        ⟨[("t", 3)], .ok (), id, fun _ => .ok ⟨["QUERY PLAN"], [], none⟩⟩).outcome
        = .ok ⟨["null"], false⟩ (.rows none) :=
  ⟨rfl,
   (query_empty_rows_null (fun _ => .ok ⟨["x"], [], none⟩)
      ⟨"SELECT x FROM t WHERE false"⟩ ["x"] rfl).1,
   (query_empty_rows_null (fun _ => .ok ⟨["x"], [], none⟩)
      ⟨"SELECT x FROM t WHERE false"⟩ ["x"] rfl).2
     (some (some ["query"])) sampleArgs [("t", 3)] id ["QUERY PLAN"] rfl⟩

/-- Whether `rows.Values()` succeeds on a cursor row. -/
def scanOk (r : EnvRow) : Bool :=
  match r.values with
  | .ok _ => true
  | .error _ => false

/-- Whether `rows.Scan(&line)` succeeds on a cursor row. -/
def textOk (r : EnvRow) : Bool :=
  match r.text with
  | .ok _ => true
  | .error _ => false

/-- Whether a catalog `rows.Scan(...)` succeeded. -/
def exceptOk : Except String α → Bool
  | .ok _ => true
  | .error _ => false

theorem marshalRows_scan_fault (fields : List String) (good : List EnvRow)
    (bad : EnvRow) (rest : List EnvRow) (acc : Option (List GoMap)) (e : String)
    (hb : bad.values = .error e) :
    good.all scanOk = true →
    marshalRows fields (good ++ bad :: rest) acc
      = .error ("failed to scan row: " ++ e) := by
  induction good generalizing acc with
  | nil => intro _; simp [marshalRows, hb]
  | cons r tl ih =>
    intro hg
    simp only [List.all_cons, Bool.and_eq_true] at hg
    rcases hv : r.values with e' | vals
    · simp [scanOk, hv] at hg
    · simpa [marshalRows, hv] using ih _ hg.2

theorem textRows_scan_fault (good : List EnvRow) (bad : EnvRow)
    (rest : List EnvRow) (acc : String) (e : String)
    (hb : bad.text = .error e) :
    good.all textOk = true →
    textRows (good ++ bad :: rest) acc = .error ("failed to scan row: " ++ e) := by
  induction good generalizing acc with
  | nil => intro _; simp [textRows, hb]
  | cons r tl ih =>
    intro hg
    simp only [List.all_cons, Bool.and_eq_true] at hg
    rcases hv : r.text with e' | line
    · simp [textOk, hv] at hg
    · simpa [textRows, hv] using ih _ hg.2

theorem catalogLoop_scan_fault (build : α → GoMap) (good : List (Except String α))
    (rest : List (Except String α)) (acc : Option (List GoMap)) (e : String) :
    good.all exceptOk = true →
    catalogLoop build (good ++ .error e :: rest) acc
      = .error ("failed to scan row: " ++ e) := by
  induction good generalizing acc with
  | nil => intro _; simp [catalogLoop]
  | cons r tl ih =>
    intro hg
    simp only [List.all_cons, Bool.and_eq_true] at hg
    rcases r with e' | x
    · simp [exceptOk] at hg
    · simpa [catalogLoop] using ih _ hg.2

theorem marshalRows_all_ok (fields : List String) (rows : List EnvRow)
    (acc : Option (List GoMap)) :
    rows.all scanOk = true → ∃ res, marshalRows fields rows acc = .ok res := by
  induction rows generalizing acc with
  | nil => exact fun _ => ⟨acc, rfl⟩
  | cons r tl ih =>
    intro h
    simp only [List.all_cons, Bool.and_eq_true] at h
    rcases hv : r.values with e' | vals
    · simp [scanOk, hv] at h
    · simpa [marshalRows, hv] using ih _ h.2

theorem textRows_all_ok (rows : List EnvRow) (acc : String) :
    rows.all textOk = true → ∃ res, textRows rows acc = .ok res := by
  induction rows generalizing acc with
  | nil => exact fun _ => ⟨acc, rfl⟩
  | cons r tl ih =>
    intro h
    simp only [List.all_cons, Bool.and_eq_true] at h
    rcases hv : r.text with e' | line
    · simp [textOk, hv] at h
    · simpa [textRows, hv] using ih _ h.2

/-- Unfolding of `ExplainAnalyze` on a live pool, successful `Begin`, and a
cursor-producing `tx.Query`. -/
theorem ExplainAnalyze_run_ok (req : Option (Option (List String)))
    (args : ExplainAnalyzeArgs) (d0 : DBState) (eff : DBState → DBState)
    (renv : RowsEnv) :
    ExplainAnalyze true req args ⟨d0, .ok (), eff, fun _ => .ok renv⟩
      = ⟨if resolveFormat args.format = "json" then
           match marshalRows renv.fields renv.rows none with
           | .error e => .err e
           | .ok results =>
             match renv.iterErr with
             | some e => .err ("row iteration error: " ++ e)
             | none => returnJSONResult results
         else
           match textRows renv.rows "" with
           | .error e => .err e
           | .ok out =>
             match renv.iterErr with
             | some e => .err ("row iteration error: " ++ e)
             | none => .ok ⟨[out], false⟩ (.text out),
         d0⟩ := by
  unfold ExplainAnalyze
  rw [if_neg (by decide : ¬(true = false))]
  dsimp only
  split <;> split <;> first | rfl | (split <;> rfl)

/-- Claim C7 counterexample: `list_tables` never consults `rows.Err()` after
its loop, so a cursor that faults after yielding one row still produces a
success envelope carrying the partially read data — not a hard tool error. -/
theorem catalog_iteration_fault_cex :
    (ListTables true
        (fun _ _ => .ok ⟨[.ok ⟨"t1", "BASE TABLE"⟩], some "connection lost"⟩)
        ⟨"public"⟩
      = returnJSONResult
          (some [[("table_name", .str "t1"), ("table_type", .str "BASE TABLE")]]))
    ∧ (ListTables true
        (fun _ _ => .ok ⟨[.ok ⟨"t1", "BASE TABLE"⟩], some "connection lost"⟩)
        ⟨"public"⟩).isHardError = false :=
  ⟨rfl, rfl⟩

/-- Claim C7 (amended): a scan fault is a hard tool-level error with no
partial data in every tool, and a cursor fault reported after iteration is a
hard error in `query` and `explain_analyze` (both output branches); the four
catalog tools, however, never consult the cursor's post-iteration fault, so
their result is identical whether or not the cursor faulted. -/
theorem scan_iteration_fault_handling :
    (∀ db args fields good bad rest iter e, bad.values = .error e →
        good.all scanOk = true →
        db args.query = .ok ⟨fields, good ++ bad :: rest, iter⟩ →
        ExecuteQuery true db args = .err ("failed to scan row: " ++ e))
  ∧ (∀ db args fields rows e, rows.all scanOk = true →
        db args.query = .ok ⟨fields, rows, some e⟩ →
        ExecuteQuery true db args = .err ("row iteration error: " ++ e))
  ∧ (∀ req args d0 eff fields good bad rest iter e,
        resolveFormat args.format = "json" → bad.values = .error e →
        good.all scanOk = true →
        (ExplainAnalyze true req args
            ⟨d0, .ok (), eff, fun _ => .ok ⟨fields, good ++ bad :: rest, iter⟩⟩).outcome
          = .err ("failed to scan row: " ++ e))
  ∧ (∀ req args d0 eff fields rows e,
        resolveFormat args.format = "json" → rows.all scanOk = true →
        (ExplainAnalyze true req args
            ⟨d0, .ok (), eff, fun _ => .ok ⟨fields, rows, some e⟩⟩).outcome
          = .err ("row iteration error: " ++ e))
  ∧ (∀ req args d0 eff fields good bad rest iter e,
        resolveFormat args.format ≠ "json" → bad.text = .error e →
        good.all textOk = true →
        (ExplainAnalyze true req args
            ⟨d0, .ok (), eff, fun _ => .ok ⟨fields, good ++ bad :: rest, iter⟩⟩).outcome
          = .err ("failed to scan row: " ++ e))
  ∧ (∀ req args d0 eff fields rows e,
        resolveFormat args.format ≠ "json" → rows.all textOk = true →
        (ExplainAnalyze true req args
            ⟨d0, .ok (), eff, fun _ => .ok ⟨fields, rows, some e⟩⟩).outcome
          = .err ("row iteration error: " ++ e))
  ∧ (∀ args good rest iter e, good.all exceptOk = true →
        ListTables true (fun _ _ => .ok ⟨good ++ .error e :: rest, iter⟩) args
          = .err ("failed to scan row: " ++ e))
  ∧ (∀ args good rest iter e, good.all exceptOk = true →
        GetTableSchema true (fun _ _ => .ok ⟨good ++ .error e :: rest, iter⟩) args
          = .err ("failed to scan row: " ++ e))
  ∧ (∀ args good rest iter e, good.all exceptOk = true →
        GetTableConstraints true (fun _ _ => .ok ⟨good ++ .error e :: rest, iter⟩) args
          = .err ("failed to scan row: " ++ e))
  ∧ (∀ args good rest iter e, good.all exceptOk = true →
        GetTableIndexes true (fun _ _ => .ok ⟨good ++ .error e :: rest, iter⟩) args
          = .err ("failed to scan row: " ++ e))
  ∧ (∀ args rows e, ListTables true (fun _ _ => .ok ⟨rows, some e⟩) args
        = ListTables true (fun _ _ => .ok ⟨rows, none⟩) args)
  ∧ (∀ args rows e, GetTableSchema true (fun _ _ => .ok ⟨rows, some e⟩) args
        = GetTableSchema true (fun _ _ => .ok ⟨rows, none⟩) args)
  ∧ (∀ args rows e, GetTableConstraints true (fun _ _ => .ok ⟨rows, some e⟩) args
        = GetTableConstraints true (fun _ _ => .ok ⟨rows, none⟩) args)
  ∧ (∀ args rows e, GetTableIndexes true (fun _ _ => .ok ⟨rows, some e⟩) args
        = GetTableIndexes true (fun _ _ => .ok ⟨rows, none⟩) args) := by
  refine ⟨?_, ?_, ?_, ?_, ?_, ?_, ?_, ?_, ?_, ?_,
    fun _ _ _ => rfl, fun _ _ _ => rfl, fun _ _ _ => rfl, fun _ _ _ => rfl⟩
  · intro db args fields good bad rest iter e hb hg hdb
    unfold ExecuteQuery
    rw [hdb]
    dsimp only
    rw [marshalRows_scan_fault fields good bad rest none e hb hg]
    rfl
  · intro db args fields rows e hok hdb
    unfold ExecuteQuery
    rw [hdb]
    dsimp only
    obtain ⟨res, hres⟩ := marshalRows_all_ok fields rows none hok
    rw [hres]
    rfl
  · intro req args d0 eff fields good bad rest iter e hf hb hg
    rw [ExplainAnalyze_run_ok]
    dsimp only
    rw [if_pos hf, marshalRows_scan_fault fields good bad rest none e hb hg]
  · intro req args d0 eff fields rows e hf hok
    rw [ExplainAnalyze_run_ok]
    dsimp only
    rw [if_pos hf]
    obtain ⟨res, hres⟩ := marshalRows_all_ok fields rows none hok
    rw [hres]
  · intro req args d0 eff fields good bad rest iter e hf hb hg
    rw [ExplainAnalyze_run_ok]
    dsimp only
    rw [if_neg hf, textRows_scan_fault good bad rest "" e hb hg]
  · intro req args d0 eff fields rows e hf hok
    rw [ExplainAnalyze_run_ok]
    dsimp only
    rw [if_neg hf]
    obtain ⟨res, hres⟩ := textRows_all_ok rows "" hok
    rw [hres]
  · intro args good rest iter e hg
    unfold ListTables
    dsimp only
    rw [catalogLoop_scan_fault listTablesRow good rest none e hg]
    rfl
  · intro args good rest iter e hg
    unfold GetTableSchema
    dsimp only
    rw [catalogLoop_scan_fault tableSchemaRow good rest none e hg]
    rfl
  · intro args good rest iter e hg
    unfold GetTableConstraints
    dsimp only
    rw [catalogLoop_scan_fault tableConstraintsRow good rest none e hg]
    rfl
  · intro args good rest iter e hg
    unfold GetTableIndexes
    dsimp only
    rw [catalogLoop_scan_fault tableIndexesRow good rest none e hg]
    rfl

theorem scan_iteration_fault_handling_witness :
    ExecuteQuery true
        (fun _ => .ok ⟨["x"], [⟨.error "boom", .error "boom"⟩], none⟩)
        ⟨"SELECT x FROM t"⟩
      = .err ("failed to scan row: " ++ "boom")
    ∧ ListTables true (fun _ _ => .ok ⟨[.error "boom"], none⟩) ⟨"public"⟩
      = .err ("failed to scan row: " ++ "boom") :=
  ⟨scan_iteration_fault_handling.1
      (fun _ => .ok ⟨["x"], [⟨.error "boom", .error "boom"⟩], none⟩)
      ⟨"SELECT x FROM t"⟩ ["x"] [] ⟨.error "boom", .error "boom"⟩ [] none "boom"
      rfl rfl rfl,
   scan_iteration_fault_handling.2.2.2.2.2.2.1
      ⟨"public"⟩ [] [] none "boom" rfl⟩
